import Mathlib

/-!
Verification of the Chatty streaming chat-completion adapter.

Shallow embedding of the two source files:

* `src/app.py`, function `chat_process` (lines 20-75): builds the
  role-tagged message list from the system message, the history and the
  prompt, then dispatches on the model selector, constructing
  backend-specific keyword arguments and delegating to a backend
  strategy; an unrecognized selector yields a single empty string.

* `src/Providers/mistral.py`, function `zephyr_chat` (lines 4-19): the
  delta-to-cumulative accumulator; a running string starts empty, each
  received token fragment has its text appended, and the updated running
  string is yielded once per fragment.

A Python generator is embedded as a function from the list of values
delivered by the backend stream to the list of values it yields; the
possibility of a transport exception in the middle of the stream is
embedded by a list of stream events ending the iteration at the first
failure event.
-/

namespace Chatty

/-- Embedding of a chat message dictionary as built by `chat_process`:
a role tag and a content string. -/
structure Message where
  role : String
  content : String
deriving DecidableEq, Repr

/-- One history entry handed to `chat_process`: a pair of the user text
and the assistant text, each possibly absent (Python `None`) or empty. -/
abbrev Turn := Option String × Option String

/-- Python truthiness of an optional string: `None` and the empty string
are falsy, every other string is truthy. -/
def truthy : Option String → Bool
  | Option.none => false
  | Option.some s => s != ""

/-- One iteration of the history loop of `chat_process`
(src/app.py lines 37-46): append a user message when the first field is
truthy, then append an assistant message when the second field is truthy. -/
def addTurn (msgs : List Message) (val : Turn) : List Message :=
  let msgs1 := if truthy val.1 then msgs ++ [⟨"user", val.1.getD ""⟩] else msgs
  if truthy val.2 then msgs1 ++ [⟨"assistant", val.2.getD ""⟩] else msgs1

/-- Message-list construction of `chat_process` (src/app.py lines 33-52):
start with the system message, fold the history through `addTurn`, then
append the user prompt unconditionally. -/
def buildMessages (system_message : String) (history : List Turn)
    (prompt : String) : List Message :=
  (history.foldl addTurn [⟨"system", system_message⟩]) ++ [⟨"user", prompt⟩]

/-- The messages contributed by a single history entry: a user message
exactly when the user text is truthy, then an assistant message exactly
when the assistant text is truthy. -/
def turnMessages (val : Turn) : List Message :=
  (if truthy val.1 then [⟨"user", val.1.getD ""⟩] else []) ++
  (if truthy val.2 then [⟨"assistant", val.2.getD ""⟩] else [])

lemma addTurn_eq (msgs : List Message) (val : Turn) :
    addTurn msgs val = msgs ++ turnMessages val := by
  unfold addTurn turnMessages
  cases truthy val.1 <;> cases truthy val.2 <;> simp

lemma foldl_addTurn (history : List Turn) :
    ∀ init : List Message,
      history.foldl addTurn init = init ++ history.flatMap turnMessages := by
  induction history with
  | nil => intro init; simp
  | cons t rest ih =>
      intro init
      simp only [List.foldl_cons, List.flatMap_cons, addTurn_eq, ih,
        List.append_assoc]

/-- Closed form of the message-list construction: the system message,
then the per-entry contributions of the history in order, then the
final user message carrying the prompt. -/
lemma buildMessages_eq (sm : String) (history : List Turn) (p : String) :
    buildMessages sm history p =
      ⟨"system", sm⟩ :: (history.flatMap turnMessages ++ [⟨"user", p⟩]) := by
  unfold buildMessages
  rw [foldl_addTurn]
  simp

/-- Embedding of the accumulation loop of `zephyr_chat`
(src/Providers/mistral.py lines 13-19), generalized over the current
value of the running string `response`: for each remaining fragment,
append its text to the running string and yield the result. -/
def zephyr_chat_from (response : String) : List String → List String
  | [] => []
  | t :: rest => (response ++ t) :: zephyr_chat_from (response ++ t) rest

/-- Embedding of `zephyr_chat` (src/Providers/mistral.py lines 4-19) on a
stream that delivers the token texts `fragments` and then ends normally:
the running string is initialized to the empty string. -/
def zephyr_chat (fragments : List String) : List String :=
  zephyr_chat_from "" fragments

/-- A transport error raised by the backend stream. -/
structure TransportError where
  msg : String
deriving DecidableEq, Repr

/-- One event of the backend stream as observed by the accumulation
loop: either a delivered chunk carrying a token text, or the stream
raising a transport error on the next pull. -/
inductive StreamEvent where
  | chunk (text : String)
  | failure (e : TransportError)
deriving DecidableEq, Repr

/-- Embedding of the `zephyr_chat` loop over a stream that may raise: the
loop pulls events in order; a chunk extends the running string and yields
it; a failure propagates out of the generator, so nothing after it is
pulled and no further element is yielded. Returns the yielded elements
and the propagated error, if any. -/
def zephyr_chat_run (response : String) :
    List StreamEvent → List String × Option TransportError
  | [] => ([], Option.none)
  | StreamEvent.chunk t :: rest =>
      let out := zephyr_chat_run (response ++ t) rest
      ((response ++ t) :: out.1, out.2)
  | StreamEvent.failure e :: _ => ([], Option.some e)

/-- On a stream of chunks that never raises, the raising embedding and
the plain embedding of the loop agree, and no error is reported. -/
lemma zephyr_chat_run_chunks (fragments : List String) :
    ∀ response : String,
      zephyr_chat_run response (fragments.map StreamEvent.chunk) =
        (zephyr_chat_from response fragments, Option.none) := by
  induction fragments with
  | nil => intro r; rfl
  | cons t rest ih =>
      intro r
      simp [zephyr_chat_run, zephyr_chat_from, ih]

lemma zephyr_chat_from_length (fragments : List String) :
    ∀ response : String,
      (zephyr_chat_from response fragments).length = fragments.length := by
  induction fragments with
  | nil => intro r; rfl
  | cons t rest ih => intro r; simp [zephyr_chat_from, ih]

lemma zephyr_chat_from_getD_succ (fragments : List String) :
    ∀ (response : String) (i : Nat), i + 1 < fragments.length →
      (zephyr_chat_from response fragments).getD (i + 1) "" =
        (zephyr_chat_from response fragments).getD i "" ++
          fragments.getD (i + 1) "" := by
  induction fragments with
  | nil => intro r i h; simp at h
  | cons t rest ih =>
      intro r i h
      cases i with
      | zero =>
          cases rest with
          | nil => simp at h
          | cons u rest2 => simp [zephyr_chat_from]
      | succ j =>
          have hj : j + 1 < rest.length := by
            simpa [List.length_cons] using Nat.lt_of_succ_lt_succ h
          simpa [zephyr_chat_from] using ih (r ++ t) j hj

lemma zephyr_chat_from_getLast (fragments : List String) :
    ∀ response : String, fragments ≠ [] →
      (zephyr_chat_from response fragments).getLast? =
        Option.some (fragments.foldl (fun r s => r ++ s) response) := by
  induction fragments with
  | nil => intro r h; exact absurd rfl h
  | cons t rest ih =>
      intro r _
      cases rest with
      | nil => rfl
      | cons u rest2 =>
          have := ih (r ++ t) (by simp)
          simpa [zephyr_chat_from, List.getLast?_cons_cons] using this

/-- The keyword arguments built by `chat_process` for the zephyr-style
strategy (src/app.py lines 56-61): `max_tokens`, `temperature`, `top_p`
and the always-true `stream` flag. -/
structure ZephyrKwargs where
  max_tokens : Nat
  temperature : Rat
  top_p : Rat
  stream : Bool
deriving DecidableEq, Repr

/-- The keyword arguments built by `chat_process` for the mistral-style
strategy (src/app.py lines 65-70): `max_new_tokens` (carrying the
`max_tokens` value), `stream`, `details` and `return_full_text`. -/
structure MistralKwargs where
  max_new_tokens : Nat
  stream : Bool
  details : Bool
  return_full_text : Bool
deriving DecidableEq, Repr

/-- A record of one delegation to a backend strategy, with the message
list and keyword arguments it was handed. -/
inductive BackendCall where
  | zephyrCall (messages : List Message) (kwargs : ZephyrKwargs)
  | mistralCall (messages : List Message) (kwargs : MistralKwargs)
deriving DecidableEq, Repr

/-- Modelled from the spec: `mistral_chat` is imported by `src/app.py`
from a provider module that is not present under `src/` (the file
`src/Providers/mistral.py` defines only `zephyr_chat`). Section 4.2 of
the spec prescribes one accumulation algorithm for every backend
strategy: a running string starts empty, each incoming token fragment
has its text appended, and the updated running string is emitted once
per fragment. -/
def mistral_chat (fragments : List String) : List String :=
  zephyr_chat_from "" fragments

/-- Embedding of `chat_process` (src/app.py lines 20-75). The token
texts delivered by whichever backend stream is contacted are supplied as
`fragments`. The result is the list of yielded strings together with the
list of backend delegations performed, so that the dispatch and the
keyword-argument construction are observable. The unrecognized-selector
branch yields a single empty string and delegates to no backend. -/
def chat_process (prompt : String) (history : List Turn)
    (system_message : String) (model : String) (max_tokens : Nat)
    (temperature top_p repetition_penalty : Rat)
    (fragments : List String) : List String × List BackendCall :=
  let messages := buildMessages system_message history prompt
  match model with
  | "zephyr-7b-beta" =>
      let kwargs : ZephyrKwargs := ⟨max_tokens, temperature, top_p, true⟩
      (zephyr_chat fragments, [BackendCall.zephyrCall messages kwargs])
  | "Mistral-7B-Instruct-v0.2" =>
      let kwargs : MistralKwargs := ⟨max_tokens, true, true, false⟩
      (mistral_chat fragments, [BackendCall.mistralCall messages kwargs])
  | _ => ([""], [])

/-- A dynamically typed Python value, for stating what `chat_process`
does when the supplied prompt is not a string. -/
inductive PyVal where
  | str (s : String)
  | int (n : Int)
  | pyNone
deriving DecidableEq, Repr

/-- A message whose content is an arbitrary Python value. -/
structure MessageD where
  role : String
  content : PyVal
deriving DecidableEq, Repr

/-- The error the spec says normalization reports on a non-string
prompt. -/
inductive NormalizeError where
  | invalidInput
deriving DecidableEq, Repr

/-- Lift a statically typed message to a dynamically typed one. -/
def msgLift (m : Message) : MessageD :=
  ⟨m.role, PyVal.str m.content⟩

/-- Embedding of the message-list construction of `chat_process`
(src/app.py lines 33-52) under Python dynamic typing: the prompt may be
any value. The body performs no type check and raises nothing, so the
result is always `Except.ok`; the `Except` wrapper records whether a
normalization error is reported before the backend call. -/
def buildMessagesD (system_message : String) (history : List Turn)
    (prompt : PyVal) : Except NormalizeError (List MessageD) :=
  Except.ok
    ((history.foldl addTurn [⟨"system", system_message⟩]).map msgLift ++
      [⟨"user", prompt⟩])

/-- Claim C1: over a backend stream delivering token fragments f1..fn,
the adapter emits exactly one element per fragment, in arrival order,
and the emitted values satisfy r_i = r_(i-1) ++ f_i with r_0 the empty
string; hence each element extends the previous one and the lengths
never decrease. -/
theorem c1_accumulation (fs : List String) :
    (zephyr_chat fs).length = fs.length ∧
    (∀ i, i < fs.length →
      (zephyr_chat fs).getD i "" =
        (if i = 0 then "" else (zephyr_chat fs).getD (i - 1) "") ++
          fs.getD i "") ∧
    (∀ i, i + 1 < fs.length →
      ∃ t, (zephyr_chat fs).getD (i + 1) "" =
          (zephyr_chat fs).getD i "" ++ t ∧
        ((zephyr_chat fs).getD i "").length ≤
          ((zephyr_chat fs).getD (i + 1) "").length) := by
  refine ⟨zephyr_chat_from_length fs "", ?_, ?_⟩
  · intro i hi
    cases i with
    | zero =>
        cases fs with
        | nil => simp at hi
        | cons t rest => simp [zephyr_chat, zephyr_chat_from]
    | succ j =>
        have h := zephyr_chat_from_getD_succ fs "" j hi
        simpa using h
  · intro i hi
    have h := zephyr_chat_from_getD_succ fs "" i hi
    refine ⟨fs.getD (i + 1) "", h, ?_⟩
    rw [show zephyr_chat fs = zephyr_chat_from "" fs from rfl, h,
      String.length_append]
    exact Nat.le_add_right _ _

/-- Witness for C1 at the fragment list of the spec scenario. -/
theorem c1_accumulation_witness :
    (zephyr_chat ["The", " sky"]).getD 1 "" =
      (zephyr_chat ["The", " sky"]).getD 0 "" ++ " sky" := by
  have h := (c1_accumulation ["The", " sky"]).2.1 1 (by decide)
  simpa using h

/-- Claim C2: for a nonempty fragment stream, the concatenation of all
fragment texts in arrival order equals the last emitted element. -/
theorem c2_round_trip (fs : List String) (h : fs ≠ []) :
    (zephyr_chat fs).getLast? = Option.some (String.join fs) :=
  zephyr_chat_from_getLast fs "" h

/-- Witness for C2 at the fragment list of the spec scenario. -/
theorem c2_round_trip_witness :
    (zephyr_chat ["The", " sky", " is", " blue."]).getLast? =
      Option.some (String.join ["The", " sky", " is", " blue."]) :=
  c2_round_trip ["The", " sky", " is", " blue."] (by decide)

/-- Claim C3: for every history and prompt, the normalized message list
is nonempty, begins with a system message carrying the supplied system
message, and ends with a user message carrying the prompt. -/
theorem c3_normalized_shape (sm : String) (history : List Turn)
    (p : String) :
    buildMessages sm history p ≠ [] ∧
    (buildMessages sm history p).head? = Option.some ⟨"system", sm⟩ ∧
    (buildMessages sm history p).getLast? = Option.some ⟨"user", p⟩ := by
  rw [buildMessages_eq]
  refine ⟨by simp, by simp, ?_⟩
  rw [← List.cons_append]
  exact List.getLast?_concat _

/-- Claim C4: the normalized list is the system message, then for each
history entry in order a user message exactly when the user text is
truthy followed by an assistant message exactly when the assistant text
is truthy, then the final user message; an entry with both fields empty
or absent contributes no message. -/
theorem c4_turn_contribution :
    (∀ (sm : String) (history : List Turn) (p : String),
      buildMessages sm history p =
        ⟨"system", sm⟩ ::
          (history.flatMap turnMessages ++ [⟨"user", p⟩])) ∧
    (∀ u a : Option String,
      turnMessages (u, a) =
        (if truthy u then [⟨"user", u.getD ""⟩] else []) ++
        (if truthy a then [⟨"assistant", a.getD ""⟩] else [])) ∧
    (∀ val : Turn,
      turnMessages val = [] ↔
        (truthy val.1 = false ∧ truthy val.2 = false)) := by
  refine ⟨buildMessages_eq, fun u a => rfl, ?_⟩
  intro val
  unfold turnMessages
  cases h1 : truthy val.1 <;> cases h2 : truthy val.2 <;> simp

/-- Claim C5: a model selector that is neither of the two recognized
tags makes the adapter yield exactly one element, the empty string, and
terminate; no error is produced. -/
theorem c5_unknown_model (prompt : String) (history : List Turn)
    (sm model : String) (mt : Nat) (temp tp rp : Rat)
    (fragments : List String)
    (h1 : model ≠ "zephyr-7b-beta")
    (h2 : model ≠ "Mistral-7B-Instruct-v0.2") :
    (chat_process prompt history sm model mt temp tp rp fragments).1 =
      [""] := by
  unfold chat_process
  split <;> simp_all

/-- Witness for C5 at a concrete unrecognized selector. -/
theorem c5_unknown_model_witness :
    (chat_process "hi" [] "sys" "gpt-4" 10 1 1 1 ["frag"]).1 = [""] :=
  c5_unknown_model "hi" [] "sys" "gpt-4" 10 1 1 1 ["frag"]
    (by decide) (by decide)

/-- Claim C6: the zephyr-style strategy is handed exactly max_tokens,
temperature, top_p and stream = true; the mistral-style strategy is
handed max_new_tokens carrying the max_tokens value, stream = true,
details = true and return_full_text = false; and the adapter result
never depends on repetition_penalty, which neither keyword-argument
record contains. -/
theorem c6_param_remapping (prompt : String) (history : List Turn)
    (sm : String) (mt : Nat) (temp tp rp : Rat)
    (fragments : List String) :
    (chat_process prompt history sm "zephyr-7b-beta" mt temp tp rp
        fragments).2 =
      [BackendCall.zephyrCall (buildMessages sm history prompt)
        ⟨mt, temp, tp, true⟩] ∧
    (chat_process prompt history sm "Mistral-7B-Instruct-v0.2" mt temp tp
        rp fragments).2 =
      [BackendCall.mistralCall (buildMessages sm history prompt)
        ⟨mt, true, true, false⟩] ∧
    (∀ (model : String) (rp2 : Rat),
      chat_process prompt history sm model mt temp tp rp fragments =
        chat_process prompt history sm model mt temp tp rp2 fragments) :=
  ⟨rfl, rfl, fun _ _ => rfl⟩

/-- Claim C7: when the backend stream delivers one fragment and then
raises a transport error, the adapter yields exactly the first prefix,
the error propagates to the caller, and no further element is produced
whatever the stream would have held afterwards. -/
theorem c7_error_after_first (f : String) (e : TransportError)
    (rest : List StreamEvent) :
    zephyr_chat_run ""
        (StreamEvent.chunk f :: StreamEvent.failure e :: rest) =
      ([f], Option.some e) :=
  rfl

/-- Counterexample for C8: at the concrete non-string prompt 42, the
message construction succeeds and reports no InvalidInput error. -/
theorem c8_counterexample :
    buildMessagesD "be terse" [] (PyVal.int 42) =
      Except.ok
        [⟨"system", PyVal.str "be terse"⟩, ⟨"user", PyVal.int 42⟩] ∧
    buildMessagesD "be terse" [] (PyVal.int 42) ≠
      Except.error NormalizeError.invalidInput :=
  ⟨rfl, by simp [buildMessagesD]⟩

/-- Amended C8: the message construction performs no prompt type check
and never fails: for every prompt value, string or not, it returns the
normalized list and reports no error before any backend call; on string
prompts it agrees with the typed normalizer. -/
theorem c8_no_validation (sm : String) (history : List Turn) :
    (∀ p : PyVal, ∃ msgs, buildMessagesD sm history p = Except.ok msgs) ∧
    (∀ p : String,
      buildMessagesD sm history (PyVal.str p) =
        Except.ok ((buildMessages sm history p).map msgLift)) := by
  refine ⟨fun p => ⟨_, rfl⟩, fun p => ?_⟩
  unfold buildMessagesD buildMessages
  simp [msgLift]

/-- Claim C9: with an unrecognized model selector, the adapter performs
no backend work at all: it records no delegation to either backend
strategy. -/
theorem c9_no_backend_invocation (prompt : String) (history : List Turn)
    (sm model : String) (mt : Nat) (temp tp rp : Rat)
    (fragments : List String)
    (h1 : model ≠ "zephyr-7b-beta")
    (h2 : model ≠ "Mistral-7B-Instruct-v0.2") :
    (chat_process prompt history sm model mt temp tp rp fragments).2 =
      [] := by
  unfold chat_process
  split <;> simp_all

/-- Witness for C9 at a concrete unrecognized selector. -/
theorem c9_no_backend_invocation_witness :
    (chat_process "hey" [] "s" "llama-3" 5 1 1 1 []).2 = [] :=
  c9_no_backend_invocation "hey" [] "s" "llama-3" 5 1 1 1 []
    (by decide) (by decide)

/-- Claim C10: the final user message carrying the prompt is appended
unconditionally, so the normalized list always ends with a user message
whose content is the prompt, even the empty prompt, and always has at
least two elements. -/
theorem c10_prompt_unconditional (sm : String) (history : List Turn)
    (p : String) :
    (buildMessages sm history p).getLast? = Option.some ⟨"user", p⟩ ∧
    2 ≤ (buildMessages sm history p).length ∧
    (buildMessages sm history "").getLast? =
      Option.some ⟨"user", ""⟩ := by
  refine ⟨?_, ?_, ?_⟩
  · rw [buildMessages_eq, ← List.cons_append]
    exact List.getLast?_concat _
  · rw [buildMessages_eq]
    simp
  · rw [buildMessages_eq, ← List.cons_append]
    exact List.getLast?_concat _

end Chatty
